import Mathlib

namespace MP2I

/-!
Verification of the mp2i-discord-bot repository against its natural-language
specification.  The Lean definitions below are shallow embeddings of the
Python source: pure computations become Lean functions, stateful code
(the wrapper objects and their single database row) becomes explicit state
passing, and fallible calls (`database_executor.execute`, Python attribute
lookup) become `Option` / `Except` values.
-/

/-! ## Paginator (`src/mp2i/utils/paginator.py`)

`Paginator.max_page_number` is
`if len(entries) == 0: 1 else -(len(entries) // -entries_per_page)`,
Python `//` being floor division (`Int.fdiv`).

`EmbedPaginator._create_embed` / `ComponentsPaginator.create_embeds_and_view`
render the slice `entries[start:end]` with `start = (page - 1) * entries_per_page`
and `end = min(start + entries_per_page, len(entries))`.
-/

/-- Python list slicing `l[start:stop]` for non-negative bounds. -/
def pySlice {α : Type} (l : List α) (start stop : Nat) : List α :=
  (l.drop start).take (stop - start)

/-- `Paginator.max_page_number`: ceiling division written as `-(len // -epp)`. -/
def max_page_number {α : Type} (entries : List α) (entries_per_page : Nat) : Int :=
  if entries.length = 0 then 1
  else -((entries.length : Int).fdiv (-(entries_per_page : Int)))

/-- The entries rendered on page `page` by `EmbedPaginator._create_embed` and
`ComponentsPaginator.create_embeds_and_view`:
`start = (page-1) * epp`, `end = min(start + epp, len)`, slice `entries[start:end]`. -/
def page_entries {α : Type} (entries : List α) (entries_per_page page : Nat) : List α :=
  let start := (page - 1) * entries_per_page
  let stop := min (start + entries_per_page) entries.length
  pySlice entries start stop

/-- The slice the specification describes for page `p`:
`entries[(p-1)*entries_per_page : min(p*entries_per_page, len(entries))]`. -/
def spec_page_entries {α : Type} (entries : List α) (entries_per_page page : Nat) : List α :=
  pySlice entries ((page - 1) * entries_per_page)
    (min (page * entries_per_page) entries.length)

/-- `Paginator._on_prev`: decrement the page only when it is above 1. -/
def on_prev (page : Nat) : Nat :=
  if 1 < page then page - 1 else page

/-- `Paginator._on_next`: increment the page only when it is below the maximum. -/
def on_next (maxPage page : Nat) : Nat :=
  if page < maxPage then page + 1 else page

/-- A press of one of the two navigation buttons. -/
inductive NavPress : Type
  | prev
  | next
deriving Repr, DecidableEq

/-- Run a sequence of previous/next button presses from a given page. -/
def navigate (maxPage : Nat) (page : Nat) : List NavPress → Nat
  | [] => page
  | NavPress.prev :: ps => navigate maxPage (on_prev page) ps
  | NavPress.next :: ps => navigate maxPage (on_next maxPage page) ps

/-- The observable state of the three buttons built by `Paginator._create_buttons`. -/
structure PagButtons where
  prevDisabled : Bool
  indicatorLabel : String
  indicatorDisabled : Bool
  nextDisabled : Bool
deriving Repr, DecidableEq

/-- `Paginator._create_buttons`: the previous button is disabled iff `page == 1`,
the indicator is always disabled, the next button is disabled iff
`page == max_page_number`. -/
def create_buttons (page maxPage : Nat) : PagButtons :=
  { prevDisabled := page == 1
    indicatorLabel := "Page " ++ toString page ++ "/" ++ toString maxPage
    indicatorDisabled := true
    nextDisabled := page == maxPage }

/-! ## Wrappers (`src/mp2i/wrappers/member.py`, `src/mp2i/wrappers/guild.py`)

A wrapper bundles a platform entity with its one database row.  We model the
world visible to one wrapper as: the optional database row for that entity,
the wrapper's cached model (`self.__model`), and a counter of executed
mutating SQL statements.  `database_executor.execute` can fail (it returns
`None` after an exception, rolling the transaction back); each call that
executes a statement therefore takes a `dbOk : Bool` flag.  Python attribute
access on a `GuildWrapper` built with `fetch=False` falls through
`ObjectWrapper.__getattr__`, which raises `AttributeError` because the boxed
`discord.Guild` has no `_GuildWrapper__model` attribute; guild operations
typed in `Except PyError` model this.
-/

/-- Columns of `MemberModel` (`database/models/member.py`). -/
structure MemberModel where
  member_id : Int
  guild_id : Int
  user_id : Int
  display_name : String
  presence : Bool
  message_count : Int
  profile_colour : Option Int
deriving Repr, DecidableEq

/-- Columns of `GuildModel` (`database/models/guild.py`). -/
structure GuildModel where
  guild_id : Int
  roles_message_id : Option Int
  suggestion_message_id : Option Int
deriving Repr, DecidableEq

/-- A `discord.Message`; only its id is used by the suggestions setter. -/
structure DiscordMessage where
  id : Int
deriving Repr, DecidableEq

/-- Exceptions surfaced by the wrapper code: the `AttributeError` raised by
`ObjectWrapper.__getattr__`, and the two exceptions of
`mp2i.database.exceptions` thrown by `register`. -/
inductive PyError : Type
  | attributeError (name : String)
  | insertException (table : String)
  | returningElementException (table : String)
deriving Repr, DecidableEq

/-- The world of one `MemberWrapper`: its single database row, its cached
`self.__model` (always assigned in `__init__`), and how many mutating SQL
statements have been executed. -/
structure MemberState where
  row : Option MemberModel
  model : Option MemberModel
  writes : Nat
deriving Repr, DecidableEq

/-- `MemberWrapper.__init__`: fetch the row and cache it. -/
def MemberWrapper.init (row : Option MemberModel) : MemberState :=
  { row := row, model := row, writes := 0 }

/-- `MemberWrapper._update`: run `UPDATE ... RETURNING` on the member's row.
On success the updated row is returned and cached; when the executor returns
no result (or no row matched), only `logger.fatal` runs and the cache is left
as it was. -/
def MemberWrapper.dbUpdate (f : MemberModel → MemberModel) (dbOk : Bool)
    (s : MemberState) : MemberState :=
  let newRow : Option MemberModel := if dbOk then s.row.map f else s.row
  let result : Option MemberModel := if dbOk then s.row.map f else none
  match result with
  | none => { s with row := newRow, writes := s.writes + 1 }
  | some m => { row := newRow, model := some m, writes := s.writes + 1 }

/-- `MemberWrapper.message_count_increment`: no cached model means an early
return; otherwise update with `message_count = self.__model.message_count + 1`. -/
def message_count_increment (dbOk : Bool) (s : MemberState) : MemberState :=
  match s.model with
  | none => s
  | some m =>
      MemberWrapper.dbUpdate (fun r => { r with message_count := m.message_count + 1 }) dbOk s

/-- The `MemberWrapper.profile_colour` setter: no cached model means an early
return; otherwise the cached model is mutated first, then `_update` runs. -/
def set_profile_colour (colour : Option Int) (dbOk : Bool) (s : MemberState) : MemberState :=
  match s.model with
  | none => s
  | some m =>
      MemberWrapper.dbUpdate (fun r => { r with profile_colour := colour }) dbOk
        { s with model := some { m with profile_colour := colour } }

/-- The `MemberWrapper.member_id` property: `-1` without a cached model. -/
def MemberWrapper.memberId (s : MemberState) : Int :=
  match s.model with
  | none => -1
  | some m => m.member_id

/-- The `MemberWrapper.message_count` property: `-1` without a cached model. -/
def MemberWrapper.messageCount (s : MemberState) : Int :=
  match s.model with
  | none => -1
  | some m => m.message_count

/-- `MemberWrapper.register`: return the cached model when there is one;
otherwise `INSERT ... RETURNING` a fresh row (`fresh` stands for the row the
database materialises), raising `InsertException` when the executor returns
no result — in particular when a row already exists, since inserting would
violate the `(guild_id, user_id)` unique constraint — and
`ReturningElementException` when no element comes back.
`UserWrapper(...).register()` only touches the separate `users` table and is
not part of this member's row or cache. -/
def MemberWrapper.register (fresh : MemberModel) (dbOk : Bool) (s : MemberState) :
    Except PyError (MemberModel × MemberState) :=
  match s.model with
  | some m => .ok (m, s)
  | none =>
      let result : Option (Option MemberModel) :=
        if dbOk && s.row.isNone then some (some fresh) else none
      match result with
      | none => .error (.insertException "member")
      | some none => .error (.returningElementException "member")
      | some (some m) =>
          .ok (m, { row := some m, model := some m, writes := s.writes + 1 })

/-- The world of one `GuildWrapper`.  `modelAttr = none` models an instance
whose `self.__model` attribute was never assigned (`fetch=False`);
`modelAttr = some mo` models an assigned attribute holding `mo`. -/
structure GuildState where
  row : Option GuildModel
  modelAttr : Option (Option GuildModel)
  writes : Nat
deriving Repr, DecidableEq

/-- `GuildWrapper.__init__(guild, fetch)`: `self.__model` is assigned the
fetched row only when `fetch` is true. -/
def GuildWrapper.init (row : Option GuildModel) (fetch : Bool) : GuildState :=
  { row := row, modelAttr := if fetch then some row else none, writes := 0 }

/-- Reading `self.__model`: when the attribute was never assigned, lookup
falls through to `ObjectWrapper.__getattr__`, and since the boxed
`discord.Guild` has no (name-mangled) `_GuildWrapper__model` attribute it
raises `AttributeError`. -/
def GuildState.getModel (s : GuildState) : Except PyError (Option GuildModel) :=
  match s.modelAttr with
  | some mo => .ok mo
  | none => .error (.attributeError "_GuildWrapper__model")

/-- `GuildWrapper._update`: same shape as `MemberWrapper._update`. -/
def GuildWrapper.dbUpdate (f : GuildModel → GuildModel) (dbOk : Bool)
    (s : GuildState) : GuildState :=
  let newRow : Option GuildModel := if dbOk then s.row.map f else s.row
  let result : Option GuildModel := if dbOk then s.row.map f else none
  match result with
  | none => { s with row := newRow, writes := s.writes + 1 }
  | some g => { row := newRow, modelAttr := some (some g), writes := s.writes + 1 }

/-- The `GuildWrapper.roles_message_id` property: the `AttributeError` of the
`__getattr__` fallback when `self.__model` was never assigned (the three-way
match inlines `GuildState.getModel`), `-1` when the cached model is `None`,
otherwise the column value. -/
def roles_message_id_get (s : GuildState) : Except PyError (Option Int) :=
  match s.modelAttr with
  | none => .error (.attributeError "_GuildWrapper__model")
  | some none => .ok (some (-1))
  | some (some g) => .ok g.roles_message_id

/-- The `GuildWrapper.roles_message_id` setter: early return without a cached
model; otherwise mutate the cached model first, then `_update`. -/
def set_roles_message_id (msgId : Option Int) (dbOk : Bool) (s : GuildState) :
    Except PyError GuildState :=
  match s.modelAttr with
  | none => .error (.attributeError "_GuildWrapper__model")
  | some none => .ok s
  | some (some g) =>
      .ok (GuildWrapper.dbUpdate (fun r => { r with roles_message_id := msgId }) dbOk
        { s with modelAttr := some (some { g with roles_message_id := msgId }) })

/-- The `GuildWrapper.suggestions_message` setter: early return without a
cached model; otherwise store `message.id if message else None` in the cached
model, then `_update`. -/
def set_suggestions_message (message : Option DiscordMessage) (dbOk : Bool)
    (s : GuildState) : Except PyError GuildState :=
  match s.modelAttr with
  | none => .error (.attributeError "_GuildWrapper__model")
  | some none => .ok s
  | some (some g) =>
      .ok (GuildWrapper.dbUpdate
        (fun r => { r with suggestion_message_id := message.map DiscordMessage.id }) dbOk
        { s with modelAttr := some (some { g with
            suggestion_message_id := message.map DiscordMessage.id }) })

/-- The `GuildWrapper.suggestions_message` getter:
`if not channel or not self.__model or not self.__model.suggestion_message_id:
return None`.  Python `or` short-circuits, so when `self.suggestions_channel`
resolves to no channel the getter returns `None` without ever reading
`self.__model`; only with a channel does it touch the model (raising
`AttributeError` on a never-assigned attribute), answer `None` for a missing
model or falsy (`None`/`0`) message id, and otherwise fetch the message by
the stored id.  `suggestionsChannel` is the resolved
`self.suggestions_channel`, a config-backed lookup. -/
def suggestions_message_get (suggestionsChannel : Option Nat) (s : GuildState) :
    Except PyError (Option DiscordMessage) :=
  match suggestionsChannel with
  | none => .ok none
  | some _ch =>
      match s.modelAttr with
      | none => .error (.attributeError "_GuildWrapper__model")
      | some none => .ok none
      | some (some g) =>
          match g.suggestion_message_id with
          | none => .ok none
          | some mid => if mid = 0 then .ok none else .ok (some { id := mid })

/-- `GuildWrapper.register`: same shape as `MemberWrapper.register` on the
`guilds` table. -/
def GuildWrapper.register (fresh : GuildModel) (dbOk : Bool) (s : GuildState) :
    Except PyError (GuildModel × GuildState) :=
  match s.modelAttr with
  | none => .error (.attributeError "_GuildWrapper__model")
  | some (some g) => .ok (g, s)
  | some none =>
      let result : Option (Option GuildModel) :=
        if dbOk && s.row.isNone then some (some fresh) else none
      match result with
      | none => .error (.insertException "guild")
      | some none => .error (.returningElementException "guild")
      | some (some g) =>
          .ok (g, { row := some g, modelAttr := some (some g), writes := s.writes + 1 })

/-- `GuildWrapper.delete`: early return without a cached model; otherwise
delete the rows whose `guild_id` matches the cached model's. -/
def GuildWrapper.delete (dbOk : Bool) (s : GuildState) : Except PyError GuildState :=
  match s.modelAttr with
  | none => .error (.attributeError "_GuildWrapper__model")
  | some none => .ok s
  | some (some g) =>
      .ok { s with
        row := if dbOk then s.row.filter (fun r => r.guild_id != g.guild_id) else s.row,
        writes := s.writes + 1 }

/-- The slice of `config.yml` the config-backed guild properties read. -/
structure GuildConfig where
  tickets_max : Option Int
  promotions_max : Option Int
deriving Repr, DecidableEq

/-- The `GuildWrapper.max_ticket` property:
`self._config.get("tickets", {}).get("max", 0)`.  It reads only the config,
never `self.__model`, so it cannot hit the `__getattr__` fallback. -/
def max_ticket (cfg : GuildConfig) (_s : GuildState) : Except PyError Int :=
  pure (cfg.tickets_max.getD 0)

/-- A concrete member row used by witnesses and counterexamples. -/
def sampleMember : MemberModel :=
  { member_id := 1, guild_id := 2, user_id := 3, display_name := "",
    presence := false, message_count := 0, profile_colour := none }

/-- A concrete guild row used by witnesses. -/
def sampleGuild : GuildModel :=
  { guild_id := 7, roles_message_id := none, suggestion_message_id := none }

/-! ## Role-selection reaction handler (`src/mp2i/cogs/roles.py`)

`Roles.reaction_add` runs on `on_raw_reaction_add`.  The selectable-role
table `self._roles[guild.id]` (populated from
`GuildWrapper.selectionnable_roles`) is a dict from role name to a
`(discord.Role, emoji_id)` pair; we model it as an ordered list of entries
with distinct names.  A member's discord roles are modelled by the list of
their role ids; `remove_roles` filters them out, `add_roles` appends a role
the member does not already hold.
-/

/-- One entry of the selectable-role table. -/
structure SelRole where
  name : String
  roleId : Nat
  emojiId : Nat
deriving Repr, DecidableEq

/-- Python `dict.get(key, None)` over the ordered entry list. -/
def dictGet (roles : List SelRole) (key : String) : Option SelRole :=
  roles.find? (fun r => r.name == key)

/-- `member.remove_roles(*roles)`: drop every given role id. -/
def removeRoles (memberRoles : List Nat) (ids : List Nat) : List Nat :=
  memberRoles.filter (fun x => !ids.contains x)

/-- `member.add_roles(role)`: adding an already-held role is a no-op. -/
def addRole (memberRoles : List Nat) (roleId : Nat) : List Nat :=
  if memberRoles.contains roleId then memberRoles else memberRoles ++ [roleId]

/-- The member's selectable roles: their role ids restricted to the table. -/
def selectableRolesOf (selectable : List SelRole) (memberRoles : List Nat) : List Nat :=
  memberRoles.filter (fun x => (selectable.map SelRole.roleId).contains x)

/-- Observable outcome of one `reaction_add` event. -/
inductive ReactionOutcome : Type
  | wrongMessage
  | crashMpiMissing
  | rolesChanged (finalRoles : List Nat)
  | profFlow (rolesAfterRemoval : List Nat)
deriving Repr, DecidableEq

/-- `Roles.reaction_add`: return early unless the reaction is on the guild's
roles message (`guild.roles_message_id != payload.message_id`); then read
`was_mpi` — `roles.get("MPI", [])[0]` raises `IndexError` when the table has
no `"MPI"` entry (`crashMpiMissing`, before any role change) — then remove
every selectable role from the member, and walk the table in order for the
first entry whose emoji matches: `"Prof"` starts the verification flow
without adding a role here; otherwise the matched role is added, preceded by
`"Ex MPI"` when the matched entry is `"Intégré"`, the member held MPI, and an
`"Ex MPI"` entry exists.  No match leaves the member with the removal only. -/
def reaction_add (selectable : List SelRole) (rolesMsgIdVal : Option Int)
    (payloadMsgId : Int) (emojiId : Nat) (memberRoles : List Nat) : ReactionOutcome :=
  if rolesMsgIdVal ≠ some payloadMsgId then .wrongMessage
  else
    match dictGet selectable "MPI" with
    | none => .crashMpiMissing
    | some mpi =>
        let wasMpi := memberRoles.contains mpi.roleId
        let removed := removeRoles memberRoles (selectable.map SelRole.roleId)
        match selectable.find? (fun r => r.emojiId == emojiId) with
        | none => .rolesChanged removed
        | some r =>
            if r.name = "Prof" then .profFlow removed
            else
              let withEx :=
                if r.name = "Intégré" ∧ wasMpi ∧ (dictGet selectable "Ex MPI").isSome then
                  match dictGet selectable "Ex MPI" with
                  | some ex => addRole removed ex.roleId
                  | none => removed
                else removed
              .rolesChanged (addRole withEx r.roleId)

/-- A concrete selectable-role table used by witnesses. -/
def sampleSel : List SelRole :=
  [{ name := "MPI", roleId := 1, emojiId := 10 },
   { name := "Intégré", roleId := 2, emojiId := 20 },
   { name := "Ex MPI", roleId := 3, emojiId := 30 },
   { name := "Prof", roleId := 4, emojiId := 40 }]

/-! ## Professor email verification (`src/mp2i/cogs/roles.py`,
`src/mp2i/utils/email.py`)

`Roles._prof_verification` exchanges direct messages with the member.  Each
`bot.wait_for` is an `Option String` (`none` is a timeout, caught by the
surrounding `except`), the academy query is the list of registered academy
domains of the guild together with a `dbOk` executor flag, and
`send_email`'s success is a boolean.  The function answers whether
`member.add_roles(role)` was reached.
-/

/-- Python `str.strip()` with no argument removes ASCII whitespace. -/
def isPyWhitespace (c : Char) : Bool :=
  c == ' ' || c == '\t' || c == '\n' || c == '\r' || c == '\x0b' || c == '\x0c'

/-- Python `str.strip()`. -/
def pyStrip (s : String) : String :=
  String.mk (((s.data.dropWhile isPyWhitespace).reverse.dropWhile isPyWhitespace).reverse)

/-- Python `str.endswith(suffix)`; the SQL side is
`literal(received_message).endswith(AcademyModel.domain_name)`. -/
def pyEndsWith (s pat : String) : Bool :=
  pat.data.isSuffixOf s.data

/-- `Roles._prof_verification`: true iff the `Prof` role is added.  The gates
in code order: a first reply must arrive, the academy query must answer and
match at least one domain, the email must be sent, a second reply must
arrive, and the stripped second reply must equal the generated code. -/
def prof_verification (academyDomains : List String) (dbOk : Bool)
    (firstReply : Option String) (verification_code : String) (emailOk : Bool)
    (secondReply : Option String) : Bool :=
  match firstReply with
  | none => false
  | some msg1 =>
      let received := pyStrip msg1
      if !dbOk then false
      else if (academyDomains.filter (fun d => pyEndsWith received d)).length = 0 then false
      else if !emailOk then false
      else
        match secondReply with
        | none => false
        | some msg2 => verification_code == pyStrip msg2

/-! ## Verification code (`src/mp2i/utils/email.py`)

`verification_code_generator(hardness)` is
`f"{:0Nd}".format(random.randint(1, 10**hardness))` with `N = hardness`:
a draw from the inclusive range `[1, 10**hardness]`, zero-padded to
`hardness` characters.  The draw is a parameter here.
-/

/-- Decimal digits of `n`, most significant first (fuel-driven so that it
computes by kernel reduction; `decDigits` supplies enough fuel). -/
def decDigitsAux : Nat → Nat → List Char
  | 0, _ => []
  | fuel + 1, n =>
      if n < 10 then [Nat.digitChar n]
      else decDigitsAux fuel (n / 10) ++ [Nat.digitChar (n % 10)]

/-- Decimal digit string of `n` (Python `"%d" % n` for `n ≥ 0`). -/
def decDigits (n : Nat) : List Char :=
  decDigitsAux (n + 1) n

/-- Python `format(n, "0Nd")`: left-pad with `'0'` up to `width`. -/
def zeroPad (width : Nat) (s : List Char) : List Char :=
  List.replicate (width - s.length) '0' ++ s

/-- `verification_code_generator(hardness)` evaluated at a fixed `draw` of
`random.randint(1, 10**hardness)`. -/
def verification_code_generator (hardness draw : Nat) : String :=
  String.mk (zeroPad hardness (decDigits draw))

theorem fdiv_negSucc_succ (n m : Nat) :
    (Int.ofNat (n + 1)).fdiv (Int.negSucc m) = Int.negSucc (n / (m + 1)) := rfl

theorem max_page_number_eq_ceil {α : Type} (entries : List α) (epp : Nat) (h : 0 < epp) :
    max_page_number entries epp = ((max 1 ((entries.length + epp - 1) / epp) : Nat) : Int) := by
  obtain ⟨m, rfl⟩ : ∃ m, epp = m + 1 := ⟨epp - 1, by omega⟩
  cases hl : entries.length with
  | zero =>
      have h0 : (0 + (m + 1) - 1) / (m + 1) = 0 := Nat.div_eq_of_lt (by omega)
      rw [max_page_number, if_pos hl, h0]
      simp
  | succ n =>
      have hneg : (-(((m + 1 : Nat) : Int))) = Int.negSucc m := by
        rw [Int.negSucc_eq]
        push_cast
        ring
      have hcast : ((n + 1 : Nat) : Int) = Int.ofNat (n + 1) := rfl
      simp only [max_page_number, hl]
      rw [if_neg (by omega), hneg, hcast, fdiv_negSucc_succ]
      have hdiv : (n + 1 + (m + 1) - 1) / (m + 1) = n / (m + 1) + 1 := by
        have harg : n + 1 + (m + 1) - 1 = n + (m + 1) := by omega
        rw [harg, Nat.add_div_right _ (by omega)]
      have hmax : max 1 (n / (m + 1) + 1) = n / (m + 1) + 1 :=
        Nat.max_eq_right (Nat.le_add_left 1 _)
      rw [hdiv, hmax, Int.negSucc_eq]
      push_cast
      ring

theorem page_entries_eq_drop_take {α : Type} (entries : List α) (epp i : Nat) :
    page_entries entries epp (i + 1) = (entries.drop (i * epp)).take epp := by
  simp only [page_entries, pySlice, Nat.add_sub_cancel]
  rw [List.take_eq_take]
  simp [List.length_drop]
  omega

theorem join_page_chunks {α : Type} (l : List α) (e : Nat) :
    ∀ n : Nat, ((List.range n).map (fun i => (l.drop (i * e)).take e)).flatten = l.take (n * e) := by
  intro n
  induction n with
  | zero => simp
  | succ n ih =>
      rw [List.range_succ, List.map_append, List.flatten_append, ih]
      simp only [List.map_cons, List.map_nil, List.flatten_cons, List.flatten_nil,
        List.append_nil]
      rw [Nat.succ_mul, List.take_add]

theorem length_le_pages_mul {α : Type} (entries : List α) (epp : Nat) (hpos : 0 < epp) :
    entries.length ≤ max 1 ((entries.length + epp - 1) / epp) * epp := by
  rcases Nat.eq_zero_or_pos entries.length with hl | hl
  · rw [hl]
    exact Nat.zero_le _
  · obtain ⟨n, hn⟩ : ∃ n, entries.length = n + 1 := ⟨entries.length - 1, by omega⟩
    rw [hn]
    have hdiv : (n + 1 + epp - 1) / epp = n / epp + 1 := by
      rw [show n + 1 + epp - 1 = n + epp by omega, Nat.add_div_right _ hpos]
    rw [hdiv, Nat.max_eq_right (Nat.le_add_left 1 _)]
    have hdm := Nat.div_add_mod n epp
    have hlt := Nat.mod_lt n hpos
    have hmc : (n / epp + 1) * epp = epp * (n / epp) + epp := by ring
    omega

/-- Claim C2: for every entries list and every `entries_per_page > 0`, the
paginator splits the list into `max(1, ceil(len / entries_per_page))` pages;
page `p` with `1 ≤ p ≤ max_page_number` renders exactly the slice
`entries[(p-1)*epp : min(p*epp, len)]`, so every page holds at most
`entries_per_page` entries, and the concatenation of all pages in page order
equals the original entries list. -/
theorem paginator_pages_correct {α : Type} (entries : List α) (epp : Nat) (hpos : 0 < epp) :
    max_page_number entries epp = ((max 1 ((entries.length + epp - 1) / epp) : Nat) : Int)
    ∧ (∀ p : Nat, 1 ≤ p → (p : Int) ≤ max_page_number entries epp →
        page_entries entries epp p = spec_page_entries entries epp p
        ∧ (page_entries entries epp p).length ≤ epp)
    ∧ ((List.range (max_page_number entries epp).toNat).map
        (fun i => page_entries entries epp (i + 1))).flatten = entries := by
  refine ⟨max_page_number_eq_ceil entries epp hpos, ?_, ?_⟩
  · intro p hp _hple
    obtain ⟨i, rfl⟩ : ∃ i, p = i + 1 := ⟨p - 1, by omega⟩
    constructor
    · simp only [page_entries, spec_page_entries, pySlice, Nat.add_sub_cancel]
      rw [show i * epp + epp = (i + 1) * epp from (Nat.succ_mul i epp).symm]
    · rw [page_entries_eq_drop_take]
      rw [List.length_take]
      exact Nat.min_le_left _ _
  · rw [max_page_number_eq_ceil entries epp hpos, Int.toNat_natCast]
    have hfun : (fun i => page_entries entries epp (i + 1))
        = (fun i => (entries.drop (i * epp)).take epp) := by
      funext i
      exact page_entries_eq_drop_take entries epp i
    rw [hfun, join_page_chunks entries epp]
    exact List.take_of_length_le (length_le_pages_mul entries epp hpos)

theorem paginator_pages_correct_witness :
    (0 : Nat) < 2
    ∧ (max_page_number [10, 20, 30] 2 = ((max 1 ((([10, 20, 30] : List Nat).length + 2 - 1) / 2) : Nat) : Int)
      ∧ (∀ p : Nat, 1 ≤ p → (p : Int) ≤ max_page_number [10, 20, 30] 2 →
          page_entries [10, 20, 30] 2 p = spec_page_entries [10, 20, 30] 2 p
          ∧ (page_entries [10, 20, 30] 2 p).length ≤ 2)
      ∧ ((List.range (max_page_number [10, 20, 30] 2).toNat).map
          (fun i => page_entries ([10, 20, 30] : List Nat) 2 (i + 1))).flatten = [10, 20, 30]) :=
  ⟨by decide, paginator_pages_correct [10, 20, 30] 2 (by decide)⟩

theorem navigate_mem_range (maxPage : Nat) :
    ∀ (ps : List NavPress) (page : Nat), 1 ≤ page → page ≤ maxPage →
      1 ≤ navigate maxPage page ps ∧ navigate maxPage page ps ≤ maxPage := by
  intro ps
  induction ps with
  | nil =>
      intro page h1 h2
      exact ⟨h1, h2⟩
  | cons b ps ih =>
      intro page h1 h2
      cases b with
      | prev =>
          refine ih (on_prev page) ?_ ?_ <;> simp only [on_prev] <;> split <;> omega
      | next =>
          refine ih (on_next maxPage page) ?_ ?_ <;> simp only [on_next] <;> split <;> omega

/-- Claim C3: from any page in `[1, max_page_number]`, every sequence of
previous/next presses keeps the page in `[1, max_page_number]`; `_on_prev` at
page 1 and `_on_next` at the last page leave the page unchanged, and the
previous button is disabled exactly at page 1 while the next button is
disabled exactly at the last page. -/
theorem paginator_nav_invariant (maxPage page : Nat) (ps : List NavPress)
    (h1 : 1 ≤ page) (h2 : page ≤ maxPage) :
    (1 ≤ navigate maxPage page ps ∧ navigate maxPage page ps ≤ maxPage)
    ∧ on_prev 1 = 1
    ∧ on_next maxPage maxPage = maxPage
    ∧ ((create_buttons page maxPage).prevDisabled = true ↔ page = 1)
    ∧ ((create_buttons page maxPage).nextDisabled = true ↔ page = maxPage) := by
  refine ⟨navigate_mem_range maxPage ps page h1 h2, ?_, ?_, ?_, ?_⟩
  · simp [on_prev]
  · simp [on_next]
  · simp [create_buttons]
  · simp [create_buttons]

theorem paginator_nav_invariant_witness :
    ((1 : Nat) ≤ 2 ∧ (2 : Nat) ≤ 3)
    ∧ ((1 ≤ navigate 3 2 [NavPress.next, NavPress.next, NavPress.prev]
        ∧ navigate 3 2 [NavPress.next, NavPress.next, NavPress.prev] ≤ 3)
      ∧ on_prev 1 = 1
      ∧ on_next 3 3 = 3
      ∧ ((create_buttons 2 3).prevDisabled = true ↔ 2 = 1)
      ∧ ((create_buttons 2 3).nextDisabled = true ↔ 2 = 3)) :=
  ⟨⟨by decide, by decide⟩,
    paginator_nav_invariant 3 2 [NavPress.next, NavPress.next, NavPress.prev]
      (by decide) (by decide)⟩

/-- Claim C1 counterexample: a member with a database row, whose wrapper is in
sync with it, runs the `profile_colour` setter while the database update
returns no result.  The setter mutated the cached model before `_update`, so
afterwards the cached model differs from the (rolled-back) row: the cache is
not in sync with its row after this operation. -/
theorem profile_colour_cache_desync_cex :
    (set_profile_colour (some 5) false
        (MemberWrapper.init (some
          { member_id := 1, guild_id := 2, user_id := 3, display_name := "",
            presence := false, message_count := 0, profile_colour := none }))).model
      ≠ (set_profile_colour (some 5) false
        (MemberWrapper.init (some
          { member_id := 1, guild_id := 2, user_id := 3, display_name := "",
            presence := false, message_count := 0, profile_colour := none }))).row := by
  decide

/-- Claim C1 (amended): for a wrapper whose entity has a database row (cache
fetched in sync with it), every mutating operation pushes the new value to
the row and leaves the cache equal to the row when the database update
returns a result; when the update returns no result, `message_count_increment`
leaves cache and row unchanged and still in sync, but the three setters
(`profile_colour`, `roles_message_id`, `suggestions_message`) leave the cached
model holding the new value while the row keeps the old one. -/
theorem wrapper_cache_sync_amended (r : MemberModel) (g : GuildModel)
    (colour : Option Int) (msgId : Option Int) (message : Option DiscordMessage) (w : Nat) :
    (message_count_increment true { row := some r, model := some r, writes := w }
      = { row := some { r with message_count := r.message_count + 1 },
          model := some { r with message_count := r.message_count + 1 }, writes := w + 1 })
    ∧ (set_profile_colour colour true { row := some r, model := some r, writes := w }
      = { row := some { r with profile_colour := colour },
          model := some { r with profile_colour := colour }, writes := w + 1 })
    ∧ (set_roles_message_id msgId true
        { row := some g, modelAttr := some (some g), writes := w }
      = .ok { row := some { g with roles_message_id := msgId },
              modelAttr := some (some { g with roles_message_id := msgId }), writes := w + 1 })
    ∧ (set_suggestions_message message true
        { row := some g, modelAttr := some (some g), writes := w }
      = .ok { row := some { g with suggestion_message_id := message.map DiscordMessage.id },
              modelAttr := some (some { g with
                suggestion_message_id := message.map DiscordMessage.id }), writes := w + 1 })
    ∧ (message_count_increment false { row := some r, model := some r, writes := w }
      = { row := some r, model := some r, writes := w + 1 })
    ∧ (set_profile_colour colour false { row := some r, model := some r, writes := w }
      = { row := some r, model := some { r with profile_colour := colour }, writes := w + 1 })
    ∧ (set_roles_message_id msgId false
        { row := some g, modelAttr := some (some g), writes := w }
      = .ok { row := some g,
              modelAttr := some (some { g with roles_message_id := msgId }), writes := w + 1 })
    ∧ (set_suggestions_message message false
        { row := some g, modelAttr := some (some g), writes := w }
      = .ok { row := some g,
              modelAttr := some (some { g with
                suggestion_message_id := message.map DiscordMessage.id }), writes := w + 1 }) := by
  refine ⟨rfl, rfl, rfl, rfl, rfl, rfl, rfl, rfl⟩

/-- Claim C7: for a member whose entity has a database row (wrapper in sync
with it), `message_count_increment` sets the row's `message_count` column to
its previous value plus one and — by the record-update form — leaves every
other column of the row unchanged, keeping the cache equal to the row; for a
wrapper with no cached row it executes no database statement at all. -/
theorem message_count_increment_frame (r : MemberModel) (w : Nat)
    (rowOther : Option MemberModel) (dbOk : Bool) :
    ((message_count_increment true { row := some r, model := some r, writes := w }).row
        = some { r with message_count := r.message_count + 1 }
      ∧ (message_count_increment true { row := some r, model := some r, writes := w }).model
        = (message_count_increment true { row := some r, model := some r, writes := w }).row
      ∧ (message_count_increment true { row := some r, model := some r, writes := w }).writes
        = w + 1)
    ∧ message_count_increment dbOk { row := rowOther, model := none, writes := w }
        = { row := rowOther, model := none, writes := w } := by
  exact ⟨⟨rfl, rfl, rfl⟩, rfl⟩

/-- Claim C8 counterexample: on a `GuildWrapper` built with `fetch=False`
whose configured suggestions channel does not resolve, the
`suggestions_message` getter — a model-backed member named by the claim —
returns `None` instead of raising `AttributeError`: the Python `or` chain
checks `not channel` first and short-circuits before ever reading
`self.__model`. -/
theorem suggestions_getter_no_raise_cex :
    suggestions_message_get none (GuildWrapper.init none false) = .ok none
    ∧ (Except.ok none : Except PyError (Option DiscordMessage))
      ≠ .error (.attributeError "_GuildWrapper__model") := by
  exact ⟨rfl, fun hcontra => by cases hcontra⟩

/-- Claim C8 (amended): a `GuildWrapper` built with `fetch=False` never
assigns its cached model attribute, so `register`, `delete`, the
`roles_message_id` getter and setter and the `suggestions_message` setter
all raise `AttributeError` through the `ObjectWrapper.__getattr__` fallback
instead of treating the model as absent, and the `suggestions_message`
getter does so as well once the suggestions channel resolves — but when the
channel does not resolve, that getter short-circuits on `not channel` and
returns `None` without touching the model.  A config-backed property such as
`max_ticket` still answers from the config. -/
theorem guild_fetch_false_behaviour (row : Option GuildModel) (fresh : GuildModel)
    (msgId : Option Int) (message : Option DiscordMessage) (dbOk : Bool)
    (cfg : GuildConfig) (ch : Nat) :
    (GuildWrapper.init row false).getModel
        = .error (.attributeError "_GuildWrapper__model")
    ∧ GuildWrapper.register fresh dbOk (GuildWrapper.init row false)
        = .error (.attributeError "_GuildWrapper__model")
    ∧ GuildWrapper.delete dbOk (GuildWrapper.init row false)
        = .error (.attributeError "_GuildWrapper__model")
    ∧ roles_message_id_get (GuildWrapper.init row false)
        = .error (.attributeError "_GuildWrapper__model")
    ∧ set_roles_message_id msgId dbOk (GuildWrapper.init row false)
        = .error (.attributeError "_GuildWrapper__model")
    ∧ set_suggestions_message message dbOk (GuildWrapper.init row false)
        = .error (.attributeError "_GuildWrapper__model")
    ∧ suggestions_message_get (some ch) (GuildWrapper.init row false)
        = .error (.attributeError "_GuildWrapper__model")
    ∧ suggestions_message_get none (GuildWrapper.init row false) = .ok none
    ∧ max_ticket cfg (GuildWrapper.init row false) = .ok (cfg.tickets_max.getD 0) := by
  exact ⟨rfl, rfl, rfl, rfl, rfl, rfl, rfl, rfl, rfl⟩

/-- Claim C10: without a cached database row, the integer accessors answer
the sentinel `-1` (`member_id`, `message_count`, and `roles_message_id`
despite its `Optional[int]` annotation), while the mutators
(`message_count_increment`, the `profile_colour` and `roles_message_id`
setters) are silent no-ops leaving the database row, the cache and the
statement count unchanged. -/
theorem missing_row_sentinels (rowM : Option MemberModel) (rowG : Option GuildModel)
    (w : Nat) (colour : Option Int) (msgId : Option Int) (dbOk : Bool) :
    MemberWrapper.memberId { row := rowM, model := none, writes := w } = -1
    ∧ MemberWrapper.messageCount { row := rowM, model := none, writes := w } = -1
    ∧ message_count_increment dbOk { row := rowM, model := none, writes := w }
        = { row := rowM, model := none, writes := w }
    ∧ set_profile_colour colour dbOk { row := rowM, model := none, writes := w }
        = { row := rowM, model := none, writes := w }
    ∧ roles_message_id_get { row := rowG, modelAttr := some none, writes := w }
        = .ok (some (-1))
    ∧ set_roles_message_id msgId dbOk { row := rowG, modelAttr := some none, writes := w }
        = .ok { row := rowG, modelAttr := some none, writes := w } := by
  exact ⟨rfl, rfl, rfl, rfl, rfl, rfl⟩

/-- Claim C6: `register()` is idempotent for both wrappers: with a cached
model it returns that model and performs no insert (the state, including the
statement counter, is untouched); otherwise a successful call inserts exactly
one row, caches it and returns it — so after any successful call, a second
call returns the same model with no further write. -/
theorem register_idempotent (freshM freshM2 : MemberModel) (freshG freshG2 : GuildModel)
    (d1 d2 : Bool) (s : MemberState) (sG : GuildState)
    (m : MemberModel) (s1 : MemberState) (g : GuildModel) (sG1 : GuildState)
    (hm : MemberWrapper.register freshM d1 s = .ok (m, s1))
    (hg : GuildWrapper.register freshG d1 sG = .ok (g, sG1)) :
    s1.model = some m
    ∧ MemberWrapper.register freshM2 d2 s1 = .ok (m, s1)
    ∧ (s.model = some m → s1 = s)
    ∧ (s.model = none → s1.writes = s.writes + 1 ∧ s1.row = some m)
    ∧ sG1.modelAttr = some (some g)
    ∧ GuildWrapper.register freshG2 d2 sG1 = .ok (g, sG1)
    ∧ (sG.modelAttr = some (some g) → sG1 = sG) := by
  have hmember : s1.model = some m
      ∧ MemberWrapper.register freshM2 d2 s1 = .ok (m, s1)
      ∧ (s.model = some m → s1 = s)
      ∧ (s.model = none → s1.writes = s.writes + 1 ∧ s1.row = some m) := by
    obtain ⟨row, model, w⟩ := s
    cases model with
    | some m0 =>
        have hpair : (m0, ({ row := row, model := some m0, writes := w } : MemberState))
            = (m, s1) := by
          simpa [MemberWrapper.register] using hm
        have h1 : m0 = m := congrArg Prod.fst hpair
        have h2 : ({ row := row, model := some m0, writes := w } : MemberState) = s1 :=
          congrArg Prod.snd hpair
        subst h1
        subst h2
        exact ⟨rfl, rfl, fun _ => rfl, (fun hcontra => by cases hcontra)⟩
    | none =>
        cases d1 with
        | false => simp [MemberWrapper.register] at hm
        | true =>
            cases row with
            | some r0 => simp [MemberWrapper.register] at hm
            | none =>
                have hpair : (freshM,
                    ({ row := some freshM, model := some freshM, writes := w + 1 }
                      : MemberState)) = (m, s1) := by
                  simpa [MemberWrapper.register] using hm
                have h1 : freshM = m := congrArg Prod.fst hpair
                have h2 : ({ row := some freshM, model := some freshM, writes := w + 1 }
                    : MemberState) = s1 := congrArg Prod.snd hpair
                subst h1
                subst h2
                exact ⟨rfl, rfl, (fun hcontra => by cases hcontra), fun _ => ⟨rfl, rfl⟩⟩
  have hguild : sG1.modelAttr = some (some g)
      ∧ GuildWrapper.register freshG2 d2 sG1 = .ok (g, sG1)
      ∧ (sG.modelAttr = some (some g) → sG1 = sG) := by
    obtain ⟨rowG, mattr, wG⟩ := sG
    cases mattr with
    | none => simp [GuildWrapper.register] at hg
    | some mo =>
        cases mo with
        | some g0 =>
            have hpair : (g0, ({ row := rowG, modelAttr := some (some g0), writes := wG }
                : GuildState)) = (g, sG1) := by
              simpa [GuildWrapper.register] using hg
            have h1 : g0 = g := congrArg Prod.fst hpair
            have h2 : ({ row := rowG, modelAttr := some (some g0), writes := wG }
                : GuildState) = sG1 := congrArg Prod.snd hpair
            subst h1
            subst h2
            exact ⟨rfl, rfl, fun _ => rfl⟩
        | none =>
            cases d1 with
            | false => simp [GuildWrapper.register] at hg
            | true =>
                cases rowG with
                | some r0 => simp [GuildWrapper.register] at hg
                | none =>
                    have hpair : (freshG,
                        ({ row := some freshG, modelAttr := some (some freshG),
                            writes := wG + 1 } : GuildState)) = (g, sG1) := by
                      simpa [GuildWrapper.register] using hg
                    have h1 : freshG = g := congrArg Prod.fst hpair
                    have h2 : ({ row := some freshG, modelAttr := some (some freshG),
                                  writes := wG + 1 } : GuildState) = sG1 :=
                      congrArg Prod.snd hpair
                    subst h1
                    subst h2
                    exact ⟨rfl, rfl, (fun hcontra => by simp at hcontra)⟩
  exact ⟨hmember.1, hmember.2.1, hmember.2.2.1, hmember.2.2.2,
    hguild.1, hguild.2.1, hguild.2.2⟩

theorem register_idempotent_witness :
    ({ row := some sampleMember, model := some sampleMember, writes := 1 }
        : MemberState).model = some sampleMember
    ∧ MemberWrapper.register sampleMember false
        { row := some sampleMember, model := some sampleMember, writes := 1 }
      = .ok (sampleMember,
          { row := some sampleMember, model := some sampleMember, writes := 1 })
    ∧ ((MemberWrapper.init none).model = some sampleMember
      → ({ row := some sampleMember, model := some sampleMember, writes := 1 }
          : MemberState) = MemberWrapper.init none)
    ∧ ((MemberWrapper.init none).model = none
      → ({ row := some sampleMember, model := some sampleMember, writes := 1 }
            : MemberState).writes = (MemberWrapper.init none).writes + 1
        ∧ ({ row := some sampleMember, model := some sampleMember, writes := 1 }
            : MemberState).row = some sampleMember)
    ∧ ({ row := some sampleGuild, modelAttr := some (some sampleGuild), writes := 1 }
        : GuildState).modelAttr = some (some sampleGuild)
    ∧ GuildWrapper.register sampleGuild false
        { row := some sampleGuild, modelAttr := some (some sampleGuild), writes := 1 }
      = .ok (sampleGuild,
          { row := some sampleGuild, modelAttr := some (some sampleGuild), writes := 1 })
    ∧ ((GuildWrapper.init none true).modelAttr = some (some sampleGuild)
      → ({ row := some sampleGuild, modelAttr := some (some sampleGuild), writes := 1 }
          : GuildState) = GuildWrapper.init none true) :=
  register_idempotent sampleMember sampleMember sampleGuild sampleGuild
    true false (MemberWrapper.init none) (GuildWrapper.init none true)
    _ _ _ _ rfl rfl

theorem selectable_removeRoles (selectable : List SelRole) (memberRoles : List Nat) :
    selectableRolesOf selectable
      (removeRoles memberRoles (selectable.map SelRole.roleId)) = [] := by
  simp only [selectableRolesOf, removeRoles, List.filter_filter, Bool.and_not_self]
  simp

theorem addRole_not_mem (memberRoles : List Nat) (rid : Nat) (h : rid ∉ memberRoles) :
    addRole memberRoles rid = memberRoles ++ [rid] := by
  rw [addRole, if_neg]
  simp [List.elem_iff]
  exact h

theorem not_mem_removeRoles (selectable : List SelRole) (memberRoles : List Nat)
    (rid : Nat) (hmem : rid ∈ selectable.map SelRole.roleId) :
    rid ∉ removeRoles memberRoles (selectable.map SelRole.roleId) := by
  intro hc
  have hfalse := (List.mem_filter.mp hc).2
  have hct : (selectable.map SelRole.roleId).contains rid = true := List.elem_iff.mpr hmem
  rw [hct] at hfalse
  simp at hfalse

theorem selectable_append_one (selectable : List SelRole) (l : List Nat) (rid : Nat)
    (hmem : rid ∈ selectable.map SelRole.roleId) :
    selectableRolesOf selectable (l ++ [rid]) = selectableRolesOf selectable l ++ [rid] := by
  have hct : (selectable.map SelRole.roleId).contains rid = true := List.elem_iff.mpr hmem
  simp only [selectableRolesOf, List.filter_append, List.filter_cons, List.filter_nil, hct]
  simp

/-- Claim C4 counterexample: two concrete failures of the claim as stated.
First, with the selectable table `[MPI (id 1, emoji 10)]`, a reaction on the
configured roles message whose emoji (99) matches no selectable role leaves
the member, who held role 1, with no roles at all — the handler removed
every selectable role even though nothing matched, contradicting that such
reactions change no roles.  Second, with the table `[Intégré (id 2, emoji
20)]` (no `MPI` entry), a reaction on the roles message whose emoji matches
the selectable role `Intégré` raises `IndexError` at
`roles.get("MPI", [])[0]` before any role change, so the member does not end
up holding the matched role as the claim promises. -/
theorem reaction_add_claim_cex :
    (reaction_add [{ name := "MPI", roleId := 1, emojiId := 10 }] (some 5) 5 99 [1]
        = ReactionOutcome.rolesChanged []
      ∧ ReactionOutcome.rolesChanged ([] : List Nat)
        ≠ ReactionOutcome.rolesChanged [1])
    ∧ (reaction_add [{ name := "Intégré", roleId := 2, emojiId := 20 }] (some 5) 5 20 [2]
        = ReactionOutcome.crashMpiMissing
      ∧ ReactionOutcome.crashMpiMissing ≠ ReactionOutcome.rolesChanged [2]) := by
  refine ⟨⟨?_, ?_⟩, ?_, ?_⟩
  · decide
  · decide
  · decide
  · decide

/-- Claim C4 (amended): a reaction on a message other than the configured
roles message changes no roles.  On the roles message, when the populated
selectable-role table has no `MPI` entry, the handler raises `IndexError` at
`roles.get("MPI", [])[0]` before changing any roles, whatever the emoji.
Otherwise: with an emoji matching a selectable entry other than `Prof`, the
handler first removes every selectable role and then adds exactly the
matched role, so the member afterwards holds exactly that selectable role —
except that when the matched entry is `Intégré`, the member held `MPI`, and
an `Ex MPI` entry exists, the `Ex MPI` role is additionally added (so the
member holds exactly the matched role and `Ex MPI`, which coincide when the
two entries share a role id); and with an emoji matching no selectable
entry, the handler still removes every selectable role and adds none,
leaving the member with no selectable role at all. -/
theorem reaction_add_amended (selectable : List SelRole) (memberRoles : List Nat)
    (rolesMsgIdVal : Option Int) (payloadMsgId : Int) (emojiId : Nat) :
    (rolesMsgIdVal ≠ some payloadMsgId →
      reaction_add selectable rolesMsgIdVal payloadMsgId emojiId memberRoles
        = ReactionOutcome.wrongMessage)
    ∧ (rolesMsgIdVal = some payloadMsgId →
        (dictGet selectable "MPI" = none →
          reaction_add selectable rolesMsgIdVal payloadMsgId emojiId memberRoles
            = ReactionOutcome.crashMpiMissing)
        ∧ (∀ mpi, dictGet selectable "MPI" = some mpi →
          (selectable.find? (fun r => r.emojiId == emojiId) = none →
            reaction_add selectable rolesMsgIdVal payloadMsgId emojiId memberRoles
              = ReactionOutcome.rolesChanged
                  (removeRoles memberRoles (selectable.map SelRole.roleId))
            ∧ selectableRolesOf selectable
                (removeRoles memberRoles (selectable.map SelRole.roleId)) = [])
          ∧ (∀ r, selectable.find? (fun r0 => r0.emojiId == emojiId) = some r →
              r.name ≠ "Prof" →
              ¬(r.name = "Intégré" ∧ memberRoles.contains mpi.roleId = true
                ∧ (dictGet selectable "Ex MPI").isSome = true) →
              reaction_add selectable rolesMsgIdVal payloadMsgId emojiId memberRoles
                = ReactionOutcome.rolesChanged
                    (removeRoles memberRoles (selectable.map SelRole.roleId) ++ [r.roleId])
              ∧ selectableRolesOf selectable
                  (removeRoles memberRoles (selectable.map SelRole.roleId) ++ [r.roleId])
                = [r.roleId])
          ∧ (∀ r ex, selectable.find? (fun r0 => r0.emojiId == emojiId) = some r →
              r.name = "Intégré" → memberRoles.contains mpi.roleId = true →
              dictGet selectable "Ex MPI" = some ex →
              reaction_add selectable rolesMsgIdVal payloadMsgId emojiId memberRoles
                = ReactionOutcome.rolesChanged
                    (addRole (addRole
                      (removeRoles memberRoles (selectable.map SelRole.roleId))
                      ex.roleId) r.roleId)
              ∧ selectableRolesOf selectable
                  (addRole (addRole
                    (removeRoles memberRoles (selectable.map SelRole.roleId))
                    ex.roleId) r.roleId)
                = (if ex.roleId = r.roleId then [r.roleId]
                   else [ex.roleId, r.roleId])))) := by
  constructor
  · intro hne
    rw [reaction_add, if_pos hne]
  · intro hmsg
    subst hmsg
    constructor
    · intro hmpinone
      rw [reaction_add, if_neg (by simp), hmpinone]
    intro mpi hmpi
    refine ⟨?_, ?_, ?_⟩
    · intro hfind
      rw [reaction_add, if_neg (by simp), hmpi, hfind]
      exact ⟨rfl, selectable_removeRoles selectable memberRoles⟩
    · intro r hfind hprof hnospecial
      have hrmem : r.roleId ∈ selectable.map SelRole.roleId :=
        List.mem_map_of_mem SelRole.roleId (List.mem_of_find?_eq_some hfind)
      have hradd := addRole_not_mem
        (removeRoles memberRoles (selectable.map SelRole.roleId)) r.roleId
        (not_mem_removeRoles selectable memberRoles r.roleId hrmem)
      constructor
      · simp only [reaction_add, hmpi, hfind]
        rw [if_neg (by simp), if_neg hprof, if_neg hnospecial, hradd]
      · rw [selectable_append_one selectable _ r.roleId hrmem,
          selectable_removeRoles selectable memberRoles]
        rfl
    · intro r ex hfind hint hwasmpi hex
      have hrmem : r.roleId ∈ selectable.map SelRole.roleId :=
        List.mem_map_of_mem SelRole.roleId (List.mem_of_find?_eq_some hfind)
      have hexmem : ex.roleId ∈ selectable.map SelRole.roleId :=
        List.mem_map_of_mem SelRole.roleId
          (List.mem_of_find?_eq_some
            (show List.find? (fun r0 => r0.name == "Ex MPI") selectable = some ex from hex))
      have hexadd := addRole_not_mem
        (removeRoles memberRoles (selectable.map SelRole.roleId)) ex.roleId
        (not_mem_removeRoles selectable memberRoles ex.roleId hexmem)
      have hprof : r.name ≠ "Prof" := by
        rw [hint]
        decide
      constructor
      · simp only [reaction_add, hmpi, hfind]
        rw [if_neg (by simp), if_neg hprof,
          if_pos ⟨hint, hwasmpi, by rw [hex]; rfl⟩, hex]
      · rw [hexadd]
        by_cases hne : ex.roleId = r.roleId
        · rw [if_pos hne]
          have hcont : (removeRoles memberRoles (selectable.map SelRole.roleId)
              ++ [ex.roleId]).contains r.roleId = true := by
            apply List.elem_iff.mpr
            rw [← hne]
            simp
          rw [addRole, if_pos hcont,
            selectable_append_one selectable _ ex.roleId hexmem,
            selectable_removeRoles selectable memberRoles, hne]
          rfl
        · rw [if_neg hne]
          have hrnotin : r.roleId ∉
              removeRoles memberRoles (selectable.map SelRole.roleId) ++ [ex.roleId] := by
            intro hc
            rcases List.mem_append.mp hc with hc1 | hc2
            · exact not_mem_removeRoles selectable memberRoles r.roleId hrmem hc1
            · rw [List.mem_singleton] at hc2
              exact hne (hc2.symm ▸ rfl)
          rw [addRole_not_mem _ r.roleId hrnotin,
            selectable_append_one selectable _ r.roleId hrmem,
            selectable_append_one selectable _ ex.roleId hexmem,
            selectable_removeRoles selectable memberRoles]
          rfl

theorem reaction_add_amended_witness :
    ((some 5 : Option Int) ≠ some 5 →
      reaction_add sampleSel (some 5) 5 20 [1] = ReactionOutcome.wrongMessage)
    ∧ ((some 5 : Option Int) = some 5 →
        (dictGet sampleSel "MPI" = none →
          reaction_add sampleSel (some 5) 5 20 [1] = ReactionOutcome.crashMpiMissing)
        ∧ (∀ mpi, dictGet sampleSel "MPI" = some mpi →
          (sampleSel.find? (fun r => r.emojiId == 20) = none →
            reaction_add sampleSel (some 5) 5 20 [1]
              = ReactionOutcome.rolesChanged
                  (removeRoles [1] (sampleSel.map SelRole.roleId))
            ∧ selectableRolesOf sampleSel
                (removeRoles [1] (sampleSel.map SelRole.roleId)) = [])
          ∧ (∀ r, sampleSel.find? (fun r0 => r0.emojiId == 20) = some r →
              r.name ≠ "Prof" →
              ¬(r.name = "Intégré" ∧ List.contains [1] mpi.roleId = true
                ∧ (dictGet sampleSel "Ex MPI").isSome = true) →
              reaction_add sampleSel (some 5) 5 20 [1]
                = ReactionOutcome.rolesChanged
                    (removeRoles [1] (sampleSel.map SelRole.roleId) ++ [r.roleId])
              ∧ selectableRolesOf sampleSel
                  (removeRoles [1] (sampleSel.map SelRole.roleId) ++ [r.roleId])
                = [r.roleId])
          ∧ (∀ r ex, sampleSel.find? (fun r0 => r0.emojiId == 20) = some r →
              r.name = "Intégré" → List.contains [1] mpi.roleId = true →
              dictGet sampleSel "Ex MPI" = some ex →
              reaction_add sampleSel (some 5) 5 20 [1]
                = ReactionOutcome.rolesChanged
                    (addRole (addRole
                      (removeRoles [1] (sampleSel.map SelRole.roleId))
                      ex.roleId) r.roleId)
              ∧ selectableRolesOf sampleSel
                  (addRole (addRole
                    (removeRoles [1] (sampleSel.map SelRole.roleId))
                    ex.roleId) r.roleId)
                = (if ex.roleId = r.roleId then [r.roleId]
                   else [ex.roleId, r.roleId])))) :=
  reaction_add_amended sampleSel [1] (some 5) 5 20

/-- Claim C5: the `Prof` role is added only when every gate of the
verification flow passed: the database answered and the stripped first reply
matched at least one registered academy domain, the verification email was
sent, and a second reply arrived whose stripped content equals the generated
code; on a non-matching code, a timeout, or any other failure the function
answers false and no role is added. -/
theorem prof_role_gated (academyDomains : List String) (dbOk : Bool)
    (firstReply : Option String) (code : String) (emailOk : Bool)
    (secondReply : Option String)
    (h : prof_verification academyDomains dbOk firstReply code emailOk secondReply = true) :
    dbOk = true
    ∧ emailOk = true
    ∧ (∃ m1, firstReply = some m1
        ∧ (academyDomains.filter (fun d => pyEndsWith (pyStrip m1) d)).length ≠ 0)
    ∧ (∃ m2, secondReply = some m2 ∧ pyStrip m2 = code) := by
  cases firstReply with
  | none => simp [prof_verification] at h
  | some m1 =>
      cases dbOk with
      | false => simp [prof_verification] at h
      | true =>
          by_cases hk :
              (academyDomains.filter (fun d => pyEndsWith (pyStrip m1) d)).length = 0
          · simp [prof_verification, hk] at h
          · cases emailOk with
            | false => simp [prof_verification] at h
            | true =>
                cases secondReply with
                | none => simp [prof_verification] at h
                | some m2 =>
                    simp only [prof_verification, Bool.not_true, Bool.false_eq_true,
                      if_false, if_neg hk] at h
                    exact ⟨rfl, rfl, ⟨m1, rfl, hk⟩,
                      ⟨m2, rfl, (beq_iff_eq.mp h).symm⟩⟩

theorem prof_role_gated_witness :
    prof_verification ["ac-paris.fr"] true (some "prof@ac-paris.fr") "000042" true
        (some " 000042 ") = true
    ∧ (true = true
      ∧ true = true
      ∧ (∃ m1, (some "prof@ac-paris.fr" : Option String) = some m1
          ∧ ((["ac-paris.fr"] : List String).filter
              (fun d => pyEndsWith (pyStrip m1) d)).length ≠ 0)
      ∧ (∃ m2, (some " 000042 " : Option String) = some m2 ∧ pyStrip m2 = "000042")) :=
  ⟨by decide,
    prof_role_gated ["ac-paris.fr"] true (some "prof@ac-paris.fr") "000042" true
      (some " 000042 ") (by decide)⟩

theorem decDigitsAux_length_le :
    ∀ fuel n h : Nat, 0 < n → n < 10 ^ fuel → n < 10 ^ h → 0 < h →
      (decDigitsAux fuel n).length ≤ h := by
  intro fuel
  induction fuel with
  | zero =>
      intro n h hn hfuel _ _
      rw [pow_zero] at hfuel
      omega
  | succ fuel ih =>
      intro n h hn hfuel hh hhpos
      rw [decDigitsAux]
      by_cases h10 : n < 10
      · rw [if_pos h10]
        simpa using hhpos
      · rw [if_neg h10, List.length_append]
        obtain ⟨h1, rfl⟩ : ∃ h1, h = h1 + 1 := ⟨h - 1, by omega⟩
        have hd1 : 0 < n / 10 := Nat.div_pos (by omega) (by omega)
        have hd2 : n / 10 < 10 ^ fuel := by
          rw [Nat.div_lt_iff_lt_mul (by omega)]
          calc n < 10 ^ (fuel + 1) := hfuel
          _ = 10 ^ fuel * 10 := by rw [pow_succ]
        have hd3 : n / 10 < 10 ^ h1 := by
          rw [Nat.div_lt_iff_lt_mul (by omega)]
          calc n < 10 ^ (h1 + 1) := hh
          _ = 10 ^ h1 * 10 := by rw [pow_succ]
        have hp1 : 0 < h1 := by
          rcases Nat.eq_zero_or_pos h1 with rfl | hp
          · rw [pow_one] at hh
            omega
          · exact hp
        have := ih (n / 10) h1 hd1 hd2 hd3 hp1
        simp only [List.length_cons, List.length_nil]
        omega

theorem decDigitsAux_pow_length :
    ∀ fuel h : Nat, 10 ^ h < 10 ^ fuel → (decDigitsAux fuel (10 ^ h)).length = h + 1 := by
  intro fuel
  induction fuel with
  | zero =>
      intro h hlt
      rw [pow_zero] at hlt
      have := Nat.one_le_pow h 10 (by omega)
      omega
  | succ fuel ih =>
      intro h hlt
      cases h with
      | zero =>
          rw [pow_zero, decDigitsAux, if_pos (by omega)]
          rfl
      | succ h1 =>
          have hge : ¬(10 ^ (h1 + 1) < 10) := by
            have h10 : (10 : Nat) ^ 1 ≤ 10 ^ (h1 + 1) :=
              Nat.pow_le_pow_right (by omega) (by omega)
            rw [pow_one] at h10
            omega
          rw [decDigitsAux, if_neg hge]
          have hdiv : 10 ^ (h1 + 1) / 10 = 10 ^ h1 := by
            rw [pow_succ]
            exact Nat.mul_div_cancel _ (by omega)
          rw [hdiv, List.length_append]
          have hlt2 : 10 ^ h1 < 10 ^ fuel := by
            have hfs : h1 + 1 < fuel + 1 := by
              by_contra hcon
              have hge2 : fuel + 1 ≤ h1 + 1 := by omega
              have := Nat.pow_le_pow_right (show 1 ≤ 10 by omega) hge2
              omega
            exact Nat.pow_lt_pow_right (by omega) (by omega)
          rw [ih h1 hlt2]
          simp

theorem self_lt_pow_succ_self (n : Nat) : n < 10 ^ (n + 1) := by
  have h1 : n < 2 ^ n := Nat.lt_two_pow n
  have h2 : (2 : Nat) ^ n ≤ 10 ^ n := Nat.pow_le_pow_left (by omega) n
  have h3 : (10 : Nat) ^ n ≤ 10 ^ (n + 1) := Nat.pow_le_pow_right (by omega) (by omega)
  omega

/-- Claim C9: for hardness `h ≥ 1`, the code is the zero-padded decimal form
of a draw from the inclusive range `[1, 10^h]`; its length is exactly `h` for
every draw except `10^h` itself, whose code has `h + 1` characters — so the
generated code is not always exactly `h` digits long. -/
theorem verification_code_length (hardness draw : Nat) (hh : 1 ≤ hardness)
    (h1 : 1 ≤ draw) (h2 : draw ≤ 10 ^ hardness) :
    (verification_code_generator hardness draw).length
      = (if draw = 10 ^ hardness then hardness + 1 else hardness)
    ∧ (verification_code_generator hardness (10 ^ hardness)).length = hardness + 1 := by
  have hpadlen : ∀ (w : Nat) (s : List Char),
      (String.mk (zeroPad w s)).length = (w - s.length) + s.length := by
    intro w s
    simp [zeroPad, String.length]
  have hpow : (decDigits (10 ^ hardness)).length = hardness + 1 := by
    rw [decDigits]
    apply decDigitsAux_pow_length
    have hofh : hardness < 10 ^ hardness + 1 := by
      have := self_lt_pow_succ_self hardness
      have h2p : hardness ≤ 10 ^ hardness := Nat.le_of_lt (by
        have ha : hardness < 2 ^ hardness := Nat.lt_two_pow hardness
        have hb : (2 : Nat) ^ hardness ≤ 10 ^ hardness := Nat.pow_le_pow_left (by omega) _
        omega)
      omega
    exact Nat.pow_lt_pow_right (by omega) hofh
  constructor
  · by_cases hdq : draw = 10 ^ hardness
    · subst hdq
      rw [if_pos rfl, verification_code_generator, hpadlen, hpow]
      omega
    · rw [if_neg hdq, verification_code_generator, hpadlen]
      have hlt : draw < 10 ^ hardness := by omega
      have hle : (decDigits draw).length ≤ hardness := by
        rw [decDigits]
        exact decDigitsAux_length_le (draw + 1) draw hardness (by omega)
          (self_lt_pow_succ_self draw) hlt (by omega)
      have hge : 1 ≤ (decDigits draw).length := by
        rw [decDigits, decDigitsAux]
        by_cases hd10 : draw < 10
        · rw [if_pos hd10]
          simp
        · rw [if_neg hd10, List.length_append]
          simp
      omega
  · rw [verification_code_generator, hpadlen, hpow]
    omega

theorem verification_code_length_witness :
    ((1 : Nat) ≤ 2 ∧ (1 : Nat) ≤ 100 ∧ (100 : Nat) ≤ 10 ^ 2)
    ∧ ((verification_code_generator 2 100).length = (if 100 = 10 ^ 2 then 2 + 1 else 2)
      ∧ (verification_code_generator 2 (10 ^ 2)).length = 2 + 1) :=
  ⟨⟨by decide, by decide, by decide⟩,
    verification_code_length 2 100 (by decide) (by decide) (by decide)⟩

end MP2I
